import Mathlib

/-!
Verification of the bulk S3 transfer scripts
(`s3_dowload_files/download.py` and `s3_folder_copier/s3_folder_copier.py`)
against their natural-language specification.

Python strings are embedded as `List Char` (`Str`), so every string
operation the scripts use (`startswith`, `split('/', 1)`, slicing,
`endswith`, concatenation, `os.path.join`) is a plain list function.
The scripts' thread pool is embedded by running every submitted unit
(the pool always runs all submitted futures to completion) while the
external world's behaviour for each unit — which call, if any, raises
which exception — is an explicit environment value; the join loop
(`for future in futures: future.result()`) re-raises the first stored
exception in submission order.  Counter updates are performed under
`self.lock` in the source, so interleavings commute and the final
counter values equal those of the sequential fold modelled here.
-/

namespace S3U

/-- A Python string, as a list of characters. -/
abbrev Str := List Char

/-- Python `s.endswith('/')`. -/
def endsWithSlash (s : Str) : Bool := s.getLast? == some '/'

/-- The literal `"s3://"` stripped by `_parse_s3_path`. -/
def scheme : Str := ['s', '3', ':', '/', '/']

/-- Python `s.split(c, 1)`: `none` when `c` does not occur in `s`,
otherwise the part strictly before the first `c` and the part strictly
after it. -/
def splitFirst (c : Char) : Str → Option (Str × Str)
  | [] => none
  | x :: xs =>
      if x = c then some ([], xs)
      else
        match splitFirst c xs with
        | none => none
        | some (pre, post) => some (x :: pre, post)

/-- Lines 49–51 of both scripts: `if prefix and not prefix.endswith('/'):
prefix += '/'`. -/
def normPre (p : Str) : Str :=
  if p ≠ [] ∧ endsWithSlash p = false then p ++ ['/'] else p

/-- Lines 41–42 of both scripts: `if s3_path.startswith('s3://'):
s3_path = s3_path[5:]`. -/
def strip_scheme (s3_path : Str) : Str :=
  if scheme.isPrefixOf s3_path then s3_path.drop 5 else s3_path

/-- `_parse_s3_path` (identical in `download.py` lines 30–53 and
`s3_folder_copier.py` lines 33–56): strip a leading `s3://` if present,
split on the first `/` into bucket and prefix (empty prefix when there
is no `/`), and append a trailing `/` to a non-empty prefix that lacks
one. -/
def parse_s3_path (s3_path : Str) : Str × Str :=
  match splitFirst '/' (strip_scheme s3_path) with
  | none => (strip_scheme s3_path, [])
  | some (bucket_name, rest) => (bucket_name, normPre rest)

/-- Relative-path computation shared by both planners
(`download.py` lines 125–128, `s3_folder_copier.py` lines 161–164):
`key[len(prefix):]` when the prefix is non-empty, else the key itself. -/
def relative_path (pre key : Str) : Str :=
  if pre ≠ [] then key.drop pre.length else key

/-- `os.path.join(a, b)` for exactly two POSIX components, as used at
`download.py` line 135. -/
def os_path_join (a b : Str) : Str :=
  if b.head? = some '/' then b
  else if a = [] ∨ endsWithSlash a = true then a ++ b
  else a ++ '/' :: b

/-- One planned download: an S3 key and the local file path it is
fetched into (the pair passed to `executor.submit` at line 138). -/
structure TransferUnit where
  sourceKey : Str
  localPath : Str
deriving DecidableEq, Repr

/-- The planning loop of `download_directory` (lines 120–139) over the
flattened listing: for each listed key, `total_files` is incremented,
then the key is skipped when its relative path is empty or it ends in
`/`; otherwise a `TransferUnit` targeting
`os.path.join(local_directory, relative_path)` is submitted.  Returns
the final `total_files` and the submitted units in submission order. -/
def download_loop (pre local_directory : Str) (keys : List Str) (total_files : Nat) :
    Nat × List TransferUnit :=
  match keys with
  | [] => (total_files, [])
  | key :: restKeys =>
      let total_files := total_files + 1
      let rel := relative_path pre key
      if rel = [] ∨ endsWithSlash key = true then
        download_loop pre local_directory restKeys total_files
      else
        let out := download_loop pre local_directory restKeys total_files
        (out.1, ⟨key, os_path_join local_directory rel⟩ :: out.2)

/-- One planned copy: source key and destination key
(the pair passed to `executor.submit` at `s3_folder_copier.py` line 169). -/
structure CopyUnit where
  sourceKey : Str
  destKey : Str
deriving DecidableEq, Repr

/-- The `ValueError` raised by `copy_folder` (line 114). -/
inductive CopyError where
  | valueError (msg : Str)
deriving DecidableEq, Repr

/-- The message of the cross-bucket `ValueError` at line 114. -/
def sameBucketMsg : Str :=
  "Source and destination buckets must be the same for this script".toList

/-- The pre-count pass of `copy_folder` (lines 123–132): every listed
key not ending in `/` increments `total_files`. -/
def copy_count_loop (keys : List Str) (total_files : Nat) : Nat :=
  match keys with
  | [] => total_files
  | key :: restKeys =>
      if endsWithSlash key = true then copy_count_loop restKeys total_files
      else copy_count_loop restKeys (total_files + 1)

/-- The dispatch pass of `copy_folder` (lines 148–170): every listed key
not ending in `/` becomes a `CopyUnit` whose destination key is
`dest_prefix + relative_path`. -/
def copy_dispatch_loop (source_pre dest_pre : Str) (keys : List Str) : List CopyUnit :=
  match keys with
  | [] => []
  | source_key :: restKeys =>
      if endsWithSlash source_key = true then copy_dispatch_loop source_pre dest_pre restKeys
      else
        ⟨source_key, dest_pre ++ relative_path source_pre source_key⟩
          :: copy_dispatch_loop source_pre dest_pre restKeys

/-- `copy_folder` (lines 99–174) up to dispatch, over the flattened
listing `keys`: parse both paths, raise `ValueError` when the buckets
differ (before any listing), pre-count the non-marker keys, return
early when the count is zero, otherwise dispatch one `CopyUnit` per
non-marker key.  The result carries the final `total_files` and the
dispatched units. -/
def copy_folder (source_s3_path dest_s3_path : Str) (keys : List Str) :
    Except CopyError (Nat × List CopyUnit) :=
  let sparsed := parse_s3_path source_s3_path
  let dparsed := parse_s3_path dest_s3_path
  if sparsed.1 ≠ dparsed.1 then
    Except.error (CopyError.valueError sameBucketMsg)
  else
    let total_files := copy_count_loop keys 0
    if total_files = 0 then Except.ok (0, [])
    else Except.ok (total_files, copy_dispatch_loop sparsed.2 dparsed.2 keys)

/-- The units dispatched by a `copy_folder` run (none when it raised). -/
def dispatched_units : Except CopyError (Nat × List CopyUnit) → List CopyUnit
  | Except.error _ => []
  | Except.ok r => r.2

/-- The final `total_files` counter of a `copy_folder` run (still `0`
when it raised before counting). -/
def planned_total : Except CopyError (Nat × List CopyUnit) → Nat
  | Except.error _ => 0
  | Except.ok r => r.1

/-- `main` of `s3_folder_copier.py` (lines 205–210): any exception from
`copy_folder` is caught and the process exits with code 1; otherwise it
exits 0. -/
def copy_main_exit_code (source_s3_path dest_s3_path : Str) (keys : List Str) : Nat :=
  match copy_folder source_s3_path dest_s3_path keys with
  | Except.error _ => 1
  | Except.ok _ => 0

/-! ### Per-unit execution and counters -/

/-- A Python exception relevant to one transfer unit: a
`botocore ClientError`, or any other exception (`OSError` from
`os.makedirs`, non-`ClientError` botocore errors, …). -/
inductive PyExc where
  | clientError (msg : Str)
  | osError (msg : Str)
deriving DecidableEq, Repr

/-- Whether an exception matches the scripts' sole `except ClientError`
handler. -/
def isClientError : PyExc → Bool
  | PyExc.clientError _ => true
  | PyExc.osError _ => false

/-- Counters of `S3DirectoryDownloader` (lines 25–27), without the
separately-maintained `total_files`. -/
structure DlCounters where
  downloaded_files : Nat
  download_errors : Nat
deriving DecidableEq, Repr

/-- The external world's behaviour for one download unit: `os.makedirs`
raises, or it succeeds and `s3_client.download_file` raises, or both
succeed. -/
inductive DlEnv where
  | makedirsRaises (e : PyExc)
  | fetchRaises (e : PyExc)
  | ok
deriving DecidableEq, Repr

/-- `download_file` (lines 55–86): the `try` block runs `os.makedirs`
then the fetch then increments `downloaded_files`; only `ClientError`
is caught (incrementing `download_errors` and returning `False`); any
other exception escapes the function and is stored in the future
(`Except.error`). -/
def download_file (env : DlEnv) (c : DlCounters) : DlCounters × Except PyExc Bool :=
  match env with
  | DlEnv.ok =>
      ({ c with downloaded_files := c.downloaded_files + 1 }, Except.ok true)
  | DlEnv.makedirsRaises e =>
      if isClientError e then
        ({ c with download_errors := c.download_errors + 1 }, Except.ok false)
      else (c, Except.error e)
  | DlEnv.fetchRaises e =>
      if isClientError e then
        ({ c with download_errors := c.download_errors + 1 }, Except.ok false)
      else (c, Except.error e)

/-- The pool executing every submitted download unit (all futures run
to completion regardless of earlier failures); returns the final
counters and each future's stored result in submission order. -/
def run_download_units (envs : List DlEnv) (c : DlCounters) :
    DlCounters × List (Except PyExc Bool) :=
  match envs with
  | [] => (c, [])
  | env :: restEnvs =>
      let step := download_file env c
      let restRun := run_download_units restEnvs step.1
      (restRun.1, step.2 :: restRun.2)

/-- The join loop (`for future in futures: future.result()`,
lines 142–143 / 173–174): re-raises the first stored exception in
submission order, if any. -/
def first_exc : List (Except PyExc Bool) → Option PyExc
  | [] => none
  | Except.error e :: _ => some e
  | Except.ok _ :: restResults => first_exc restResults

/-- Counters of `S3FolderCopier` (lines 26–28), without `total_files`. -/
structure CpCounters where
  copied_files : Nat
  copy_errors : Nat
deriving DecidableEq, Repr

/-- The external world's behaviour for one copy unit: the
`s3_client.copy_object` call raises, or it succeeds. -/
inductive CpEnv where
  | copyRaises (e : PyExc)
  | ok
deriving DecidableEq, Repr

/-- `copy_object` (lines 58–97): the `try` block issues the copy then
increments `copied_files`; only `ClientError` is caught (incrementing
`copy_errors` and returning `False`); any other exception escapes. -/
def copy_object (env : CpEnv) (c : CpCounters) : CpCounters × Except PyExc Bool :=
  match env with
  | CpEnv.ok =>
      ({ c with copied_files := c.copied_files + 1 }, Except.ok true)
  | CpEnv.copyRaises e =>
      if isClientError e then
        ({ c with copy_errors := c.copy_errors + 1 }, Except.ok false)
      else (c, Except.error e)

/-- The pool executing every submitted copy unit. -/
def run_copy_units (envs : List CpEnv) (c : CpCounters) :
    CpCounters × List (Except PyExc Bool) :=
  match envs with
  | [] => (c, [])
  | env :: restEnvs =>
      let step := copy_object env c
      let restRun := run_copy_units restEnvs step.1
      (restRun.1, step.2 :: restRun.2)

/-! ### Summary reporting -/

/-- The success-rate line of the two `print_summary` functions: either
the `"No files processed"` text or a percentage (kept exact as a
rational; the script rounds only when printing). -/
inductive SummaryRateLine where
  | noFilesProcessed
  | successRate (q : ℚ)
deriving DecidableEq

/-- `print_summary` of `download.py` (lines 153–154): the rate line is
`downloaded_files / total_files * 100` when `total_files > 0`, else
`"No files processed"`. -/
def dl_success_rate_line (total_files downloaded_files : Nat) : SummaryRateLine :=
  if 0 < total_files then
    SummaryRateLine.successRate ((downloaded_files : ℚ) / (total_files : ℚ) * 100)
  else SummaryRateLine.noFilesProcessed

/-- `print_summary` of `s3_folder_copier.py` (lines 189–190): the rate
line is `copied_files / total_files * 100` when `total_files > 0`, else
`"No files processed"`. -/
def cp_success_rate_line (total_files copied_files : Nat) : SummaryRateLine :=
  if 0 < total_files then
    SummaryRateLine.successRate ((copied_files : ℚ) / (total_files : ℚ) * 100)
  else SummaryRateLine.noFilesProcessed

/-- Reassemble a parsed `(bucket, prefix)` pair into an address of the
`s3://bucket/prefix` shape, the normalized form the scripts print
(`download.py` line 100, `s3_folder_copier.py` line 116). -/
def reassemble (bucket_name pre : Str) : Str := scheme ++ bucket_name ++ '/' :: pre

/-- Modelled from the claim's words for the amended C2: the bucket
portion is "the part before the first `/` after stripping the scheme",
the remainder is everything after that first `/` (empty when there is
no `/`), and a non-empty remainder lacking a trailing `/` gets one
appended.  Stated independently of `splitFirst` via
`takeWhile`/`dropWhile`. -/
def spec_parse (s3_path : Str) : Str × Str :=
  let t := strip_scheme s3_path
  let bucketPortion := t.takeWhile (fun x => x != '/')
  let remainder := (t.dropWhile (fun x => x != '/')).tail
  (bucketPortion,
   if remainder ≠ [] ∧ ¬ remainder.getLast? = some '/' then remainder ++ ['/'] else remainder)

/-! ### Helper lemmas about the string model -/

/-- When `split('/', 1)` finds no separator, no character of the string
is the separator. -/
lemma splitFirst_eq_none {c : Char} {s : Str} :
    splitFirst c s = none → ∀ x ∈ s, x ≠ c := by
  induction s with
  | nil => intro _ x hx; exact absurd hx (List.not_mem_nil x)
  | cons y ys ih =>
      intro h x hx
      by_cases hy : y = c
      · simp [splitFirst, if_pos hy] at h
      · simp only [splitFirst, if_neg hy] at h
        cases hsp : splitFirst c ys with
        | none =>
            rcases List.mem_cons.mp hx with rfl | hx'
            · exact hy
            · exact ih hsp x hx'
        | some pr =>
            obtain ⟨a, b⟩ := pr
            rw [hsp] at h
            simp at h

/-- When `split('/', 1)` finds a separator, it returns the
separator-free part before the first occurrence and everything after
it. -/
lemma splitFirst_eq_some {c : Char} {s a b : Str} :
    splitFirst c s = some (a, b) → s = a ++ c :: b ∧ ∀ x ∈ a, x ≠ c := by
  induction s generalizing a b with
  | nil => intro h; simp [splitFirst] at h
  | cons y ys ih =>
      intro h
      by_cases hy : y = c
      · simp only [splitFirst, if_pos hy, Option.some.injEq, Prod.mk.injEq] at h
        obtain ⟨h1, h2⟩ := h
        subst h1; subst h2; subst hy
        exact ⟨rfl, by intro x hx; exact absurd hx (List.not_mem_nil x)⟩
      · simp only [splitFirst, if_neg hy] at h
        cases hsp : splitFirst c ys with
        | none => rw [hsp] at h; simp at h
        | some pr =>
            obtain ⟨a', b'⟩ := pr
            rw [hsp] at h
            simp only [Option.some.injEq, Prod.mk.injEq] at h
            obtain ⟨h1, h2⟩ := h
            subst h1; subst h2
            obtain ⟨hys, ha'⟩ := ih hsp
            refine ⟨by rw [hys]; rfl, ?_⟩
            intro x hx
            rcases List.mem_cons.mp hx with rfl | hx'
            · exact hy
            · exact ha' x hx'

/-- Computation rule: splitting `a ++ c :: b` at `c` when `a` is
`c`-free yields `(a, b)`. -/
lemma splitFirst_append {c : Char} (b : Str) :
    ∀ {a : Str}, (∀ x ∈ a, x ≠ c) → splitFirst c (a ++ c :: b) = some (a, b) := by
  intro a
  induction a with
  | nil => intro _; simp [splitFirst]
  | cons y ys ih =>
      intro h
      have hy : y ≠ c := h y (List.mem_cons_self y ys)
      simp only [List.cons_append, splitFirst, if_neg hy, List.append_eq]
      rw [ih (fun x hx => h x (List.mem_cons_of_mem y hx))]

/-- The prefix normalizer returns the empty string or a
slash-terminated string. -/
lemma normPre_invariant (p : Str) : normPre p = [] ∨ endsWithSlash (normPre p) = true := by
  unfold normPre
  split
  · right
    simp [endsWithSlash, List.getLast?_concat]
  · rename_i h
    push_neg at h
    rcases eq_or_ne p [] with hp | hp
    · left; exact hp
    · right
      have hb := h hp
      simpa using hb

/-- The prefix normalizer fixes strings that already satisfy the
invariant. -/
lemma normPre_fixed {p : Str} (h : p = [] ∨ endsWithSlash p = true) : normPre p = p := by
  unfold normPre
  rcases h with rfl | h
  · simp
  · rw [if_neg]
    simp [h]

/-- The parsed prefix is empty or slash-terminated. -/
lemma parse_snd_invariant (s : Str) :
    (parse_s3_path s).2 = [] ∨ endsWithSlash (parse_s3_path s).2 = true := by
  unfold parse_s3_path
  cases hsp : splitFirst '/' (strip_scheme s) with
  | none => left; rfl
  | some pr => exact normPre_invariant pr.2

/-- The parsed bucket never contains a slash. -/
lemma parse_fst_no_slash (s : Str) : ∀ x ∈ (parse_s3_path s).1, x ≠ '/' := by
  unfold parse_s3_path
  cases hsp : splitFirst '/' (strip_scheme s) with
  | none =>
      intro x hx
      exact splitFirst_eq_none hsp x hx
  | some pr =>
      intro x hx
      exact (splitFirst_eq_some hsp).2 x hx

/-- A list is a Boolean prefix of itself followed by anything. -/
lemma isPrefixOf_append_self : ∀ (l t : Str), l.isPrefixOf (l ++ t) = true
  | [], t => by simp [List.isPrefixOf]
  | a :: as, t => by simp [List.isPrefixOf, isPrefixOf_append_self as t]

/-- Stripping the scheme from `scheme ++ t` yields `t`. -/
lemma strip_scheme_append (t : Str) : strip_scheme (scheme ++ t) = t := by
  unfold strip_scheme
  rw [if_pos (isPrefixOf_append_self scheme t)]
  exact List.drop_left scheme t

/-- Parsing a reassembled address whose bucket is slash-free and whose
prefix satisfies the normalization invariant returns the pair
unchanged. -/
lemma parse_reassemble (b p : Str) (hb : ∀ x ∈ b, x ≠ '/')
    (hp : p = [] ∨ endsWithSlash p = true) :
    parse_s3_path (reassemble b p) = (b, p) := by
  unfold reassemble parse_s3_path
  rw [List.append_assoc, strip_scheme_append (b ++ '/' :: p), splitFirst_append p hb]
  show (b, normPre p) = (b, p)
  rw [normPre_fixed hp]

/-- `takeWhile (· != c)` on `a ++ c :: b` with `a` `c`-free is `a`. -/
lemma takeWhile_append_sep {c : Char} (b : Str) :
    ∀ {a : Str}, (∀ x ∈ a, x ≠ c) → (a ++ c :: b).takeWhile (fun x => x != c) = a := by
  intro a
  induction a with
  | nil => intro _; simp [List.takeWhile]
  | cons y ys ih =>
      intro h
      have hy : y ≠ c := h y (List.mem_cons_self y ys)
      simp only [List.cons_append, List.takeWhile_cons]
      rw [if_pos (by simpa using hy)]
      rw [ih (fun x hx => h x (List.mem_cons_of_mem y hx))]

/-- `dropWhile (· != c)` on `a ++ c :: b` with `a` `c`-free is `c :: b`. -/
lemma dropWhile_append_sep {c : Char} (b : Str) :
    ∀ {a : Str}, (∀ x ∈ a, x ≠ c) → (a ++ c :: b).dropWhile (fun x => x != c) = c :: b := by
  intro a
  induction a with
  | nil => intro _; simp [List.dropWhile]
  | cons y ys ih =>
      intro h
      have hy : y ≠ c := h y (List.mem_cons_self y ys)
      simp only [List.cons_append, List.dropWhile_cons]
      rw [if_pos (by simpa using hy)]
      exact ih (fun x hx => h x (List.mem_cons_of_mem y hx))

/-- The claim-worded normalizer agrees with the source's normalizer. -/
lemma normPre_spec_eq (p : Str) :
    (if p ≠ [] ∧ ¬ p.getLast? = some '/' then p ++ ['/'] else p) = normPre p := by
  by_cases h : p.getLast? = some '/' <;> by_cases hp : p = [] <;>
    simp [normPre, endsWithSlash, h, hp]

/-! ### Helper lemmas about unit execution -/

/-- Unfolding: counters after a dispatched batch. -/
lemma run_download_units_cons_fst (env : DlEnv) (envs : List DlEnv) (c : DlCounters) :
    (run_download_units (env :: envs) c).1
      = (run_download_units envs (download_file env c).1).1 := rfl

/-- Unfolding: stored results of a dispatched batch. -/
lemma run_download_units_cons_snd (env : DlEnv) (envs : List DlEnv) (c : DlCounters) :
    (run_download_units (env :: envs) c).2
      = (download_file env c).2 :: (run_download_units envs (download_file env c).1).2 := rfl

/-- `download_file` stores an uncaught exception only when it is not a
`ClientError`, and then leaves the counters untouched. -/
lemma download_file_error_not_client {env : DlEnv} {c : DlCounters} {e : PyExc} :
    (download_file env c).2 = Except.error e →
    isClientError e = false ∧ (download_file env c).1 = c := by
  cases env with
  | ok => intro h; simp [download_file] at h
  | makedirsRaises e' =>
      intro h
      by_cases hc : isClientError e'
      · simp [download_file, hc] at h
      · simp [download_file, hc] at h
        subst h
        exact ⟨by simpa using hc, by simp [download_file, hc]⟩
  | fetchRaises e' =>
      intro h
      by_cases hc : isClientError e'
      · simp [download_file, hc] at h
      · simp [download_file, hc] at h
        subst h
        exact ⟨by simpa using hc, by simp [download_file, hc]⟩

/-- A download unit that stores no exception increments exactly one of
the two counters by one. -/
lemma download_file_ok_cases {env : DlEnv} {c : DlCounters} {b : Bool} :
    (download_file env c).2 = Except.ok b →
    ((download_file env c).1.downloaded_files = c.downloaded_files + 1 ∧
     (download_file env c).1.download_errors = c.download_errors) ∨
    ((download_file env c).1.downloaded_files = c.downloaded_files ∧
     (download_file env c).1.download_errors = c.download_errors + 1) := by
  cases env with
  | ok => intro _; left; simp [download_file]
  | makedirsRaises e' =>
      intro h
      by_cases hc : isClientError e'
      · right; simp [download_file, hc]
      · simp [download_file, hc] at h
  | fetchRaises e' =>
      intro h
      by_cases hc : isClientError e'
      · right; simp [download_file, hc]
      · simp [download_file, hc] at h

/-- Exceptions reaching the download join point are never `ClientError`s. -/
lemma run_download_units_exc : ∀ (envs : List DlEnv) (c : DlCounters) (e : PyExc),
    first_exc (run_download_units envs c).2 = some e → isClientError e = false := by
  intro envs
  induction envs with
  | nil => intro c e h; simp [run_download_units, first_exc] at h
  | cons env restEnvs ih =>
      intro c e h
      rw [run_download_units_cons_snd] at h
      cases hstep : (download_file env c).2 with
      | error e' =>
          rw [hstep] at h
          simp only [first_exc, Option.some.injEq] at h
          subst h
          exact (download_file_error_not_client hstep).1
      | ok b =>
          rw [hstep] at h
          simp only [first_exc] at h
          exact ih _ e h

/-- When the download join point re-raises nothing, the two counters
absorb exactly one increment per dispatched unit. -/
lemma run_download_units_sum : ∀ (envs : List DlEnv) (c : DlCounters),
    first_exc (run_download_units envs c).2 = none →
    (run_download_units envs c).1.downloaded_files
        + (run_download_units envs c).1.download_errors
      = c.downloaded_files + c.download_errors + envs.length := by
  intro envs
  induction envs with
  | nil => intro c _; simp [run_download_units]
  | cons env restEnvs ih =>
      intro c hnone
      rw [run_download_units_cons_snd] at hnone
      rw [run_download_units_cons_fst]
      cases hstep : (download_file env c).2 with
      | error e' =>
          rw [hstep] at hnone
          simp [first_exc] at hnone
      | ok b =>
          rw [hstep] at hnone
          simp only [first_exc] at hnone
          have hsum := ih (download_file env c).1 hnone
          rcases download_file_ok_cases hstep with ⟨h1, h2⟩ | ⟨h1, h2⟩ <;>
            simp only [List.length_cons] <;> omega

/-- Unfolding: counters after a dispatched copy batch. -/
lemma run_copy_units_cons_fst (env : CpEnv) (envs : List CpEnv) (c : CpCounters) :
    (run_copy_units (env :: envs) c).1
      = (run_copy_units envs (copy_object env c).1).1 := rfl

/-- Unfolding: stored results of a dispatched copy batch. -/
lemma run_copy_units_cons_snd (env : CpEnv) (envs : List CpEnv) (c : CpCounters) :
    (run_copy_units (env :: envs) c).2
      = (copy_object env c).2 :: (run_copy_units envs (copy_object env c).1).2 := rfl

/-- `copy_object` stores an uncaught exception only when it is not a
`ClientError`, and then leaves the counters untouched. -/
lemma copy_object_error_not_client {env : CpEnv} {c : CpCounters} {e : PyExc} :
    (copy_object env c).2 = Except.error e →
    isClientError e = false ∧ (copy_object env c).1 = c := by
  cases env with
  | ok => intro h; simp [copy_object] at h
  | copyRaises e' =>
      intro h
      by_cases hc : isClientError e'
      · simp [copy_object, hc] at h
      · simp [copy_object, hc] at h
        subst h
        exact ⟨by simpa using hc, by simp [copy_object, hc]⟩

/-- A copy unit that stores no exception increments exactly one of the
two counters by one. -/
lemma copy_object_ok_cases {env : CpEnv} {c : CpCounters} {b : Bool} :
    (copy_object env c).2 = Except.ok b →
    ((copy_object env c).1.copied_files = c.copied_files + 1 ∧
     (copy_object env c).1.copy_errors = c.copy_errors) ∨
    ((copy_object env c).1.copied_files = c.copied_files ∧
     (copy_object env c).1.copy_errors = c.copy_errors + 1) := by
  cases env with
  | ok => intro _; left; simp [copy_object]
  | copyRaises e' =>
      intro h
      by_cases hc : isClientError e'
      · right; simp [copy_object, hc]
      · simp [copy_object, hc] at h

/-- Exceptions reaching the copy join point are never `ClientError`s. -/
lemma run_copy_units_exc : ∀ (envs : List CpEnv) (c : CpCounters) (e : PyExc),
    first_exc (run_copy_units envs c).2 = some e → isClientError e = false := by
  intro envs
  induction envs with
  | nil => intro c e h; simp [run_copy_units, first_exc] at h
  | cons env restEnvs ih =>
      intro c e h
      rw [run_copy_units_cons_snd] at h
      cases hstep : (copy_object env c).2 with
      | error e' =>
          rw [hstep] at h
          simp only [first_exc, Option.some.injEq] at h
          subst h
          exact (copy_object_error_not_client hstep).1
      | ok b =>
          rw [hstep] at h
          simp only [first_exc] at h
          exact ih _ e h

/-- When the copy join point re-raises nothing, the two counters absorb
exactly one increment per dispatched unit. -/
lemma run_copy_units_sum : ∀ (envs : List CpEnv) (c : CpCounters),
    first_exc (run_copy_units envs c).2 = none →
    (run_copy_units envs c).1.copied_files + (run_copy_units envs c).1.copy_errors
      = c.copied_files + c.copy_errors + envs.length := by
  intro envs
  induction envs with
  | nil => intro c _; simp [run_copy_units]
  | cons env restEnvs ih =>
      intro c hnone
      rw [run_copy_units_cons_snd] at hnone
      rw [run_copy_units_cons_fst]
      cases hstep : (copy_object env c).2 with
      | error e' =>
          rw [hstep] at hnone
          simp [first_exc] at hnone
      | ok b =>
          rw [hstep] at hnone
          simp only [first_exc] at hnone
          have hsum := ih (copy_object env c).1 hnone
          rcases copy_object_ok_cases hstep with ⟨h1, h2⟩ | ⟨h1, h2⟩ <;>
            simp only [List.length_cons] <;> omega

/-! ### Claim theorems -/

/-- Claim C2, counterexample: the claim says parsing fails with
`InvalidAddress` when the bucket portion is empty, but `_parse_s3_path`
is a total function with no failure path: on `"s3:///a"` — whose bucket
portion (the part before the first `/` after stripping the scheme) is
empty — it succeeds and returns the pair `("", "a/")`. -/
theorem C2_invalid_address_counterexample :
    parse_s3_path ("s3:///a".toList) = ([], "a/".toList) ∧
    (parse_s3_path ("s3:///a".toList)).1 = [] := by decide

/-- Claim C2, amended: parsing never fails; for every raw address
string — including those with an empty bucket portion — it returns the
bucket portion (the part before the first `/` after stripping the
scheme) together with the normalized remainder. -/
theorem C2_parse_never_fails : ∀ s : Str, parse_s3_path s = spec_parse s := by
  intro s
  unfold parse_s3_path spec_parse
  cases hsp : splitFirst '/' (strip_scheme s) with
  | none =>
      have hall := splitFirst_eq_none hsp
      have ht : (strip_scheme s).takeWhile (fun x => x != '/') = strip_scheme s :=
        List.takeWhile_eq_self_iff.mpr (fun a ha => by simpa using hall a ha)
      have hd : (strip_scheme s).dropWhile (fun x => x != '/') = [] :=
        List.dropWhile_eq_nil_iff.mpr (fun a ha => by simpa using hall a ha)
      simp [ht, hd]
  | some pr =>
      obtain ⟨a, b⟩ := pr
      obtain ⟨hts, ha⟩ := splitFirst_eq_some hsp
      rw [hts]
      dsimp only
      rw [takeWhile_append_sep b ha, dropWhile_append_sep b ha]
      simp only [List.tail_cons, normPre_spec_eq]

/-- Claim C6: for every key that starts with the (possibly empty)
prefix, the computed relative path is exactly the suffix of the key
after the prefix, and `prefix ++ relativePath` reconstructs the key. -/
theorem C6_relative_path_suffix : ∀ (pre key : Str), pre <+: key →
    relative_path pre key = key.drop pre.length ∧
    pre ++ relative_path pre key = key := by
  intro pre key h
  obtain ⟨t, rfl⟩ := h
  have h1 : relative_path pre (pre ++ t) = t := by
    unfold relative_path
    split
    · exact List.drop_left pre t
    · rename_i hp
      rw [not_ne_iff] at hp
      subst hp
      rfl
  refine ⟨?_, ?_⟩
  · rw [h1, List.drop_left]
  · rw [h1]

/-- Witness for C6 at prefix `a/` and key `a/f1.txt`. -/
theorem C6_relative_path_suffix_witness :
    relative_path ("a/".toList) ("a/f1.txt".toList)
        = ("a/f1.txt".toList).drop ("a/".toList).length ∧
    "a/".toList ++ relative_path ("a/".toList) ("a/f1.txt".toList) = "a/f1.txt".toList :=
  C6_relative_path_suffix ("a/".toList) ("a/f1.txt".toList) ⟨"f1.txt".toList, by decide⟩

/-- Claim C7: parsing is idempotent — reassembling the parsed
`(bucket, prefix)` into an `s3://bucket/prefix` address and parsing it
again yields the same pair. -/
theorem C7_parse_idempotent : ∀ s : Str,
    parse_s3_path (reassemble (parse_s3_path s).1 (parse_s3_path s).2) = parse_s3_path s := by
  intro s
  rw [parse_reassemble (parse_s3_path s).1 (parse_s3_path s).2
    (parse_fst_no_slash s) (parse_snd_invariant s)]

/-- Claim C9: for every input address, the parsed prefix is either
empty or ends with `/`; the parsed pair is an immutable value in this
embedding, so this is the prefix every later listing and planning step
receives. -/
theorem C9_parsed_pre_invariant : ∀ s : Str,
    (parse_s3_path s).2 = [] ∨ endsWithSlash (parse_s3_path s).2 = true :=
  parse_snd_invariant

/-- Claim C1, counterexample: for the listing
`[a/f1.txt, a/f2.txt, a/sub/]` under prefix `a/`, the claim says
`totalFiles` equals 2 at completion, but `download_directory`
increments `total_files` for every listed key — including the
directory marker `a/sub/`, which is counted before being skipped — so
`totalFiles` is 3. -/
theorem C1_scenario_counterexample :
    ¬ (download_loop ("a/".toList) ("/out".toList)
        ["a/f1.txt".toList, "a/f2.txt".toList, "a/sub/".toList] 0).1 = 2 := by decide

/-- Claim C1, amended: for the listing `[a/f1.txt, a/f2.txt, a/sub/]`
under prefix `a/` with local root `/out`, the planner produces exactly
the two `TransferUnit`s `f1.txt → /out/f1.txt` and `f2.txt →
/out/f2.txt`, the key `a/sub/` produces none, and `totalFiles` equals
3 at completion (the directory marker is counted in `total_files`
before the skip test). -/
theorem C1_scenario_amended :
    download_loop ("a/".toList) ("/out".toList)
        ["a/f1.txt".toList, "a/f2.txt".toList, "a/sub/".toList] 0
      = (3, [⟨"a/f1.txt".toList, "/out/f1.txt".toList⟩,
             ⟨"a/f2.txt".toList, "/out/f2.txt".toList⟩]) := by decide

/-- Claim C5: whenever the parsed source bucket differs from the parsed
destination bucket, `copy_folder` raises the cross-bucket `ValueError`
before any listing pass, zero copy units are dispatched, `total_files`
stays 0, and `main` exits with code 1. -/
theorem C5_cross_bucket : ∀ (source_s3_path dest_s3_path : Str) (keys : List Str),
    (parse_s3_path source_s3_path).1 ≠ (parse_s3_path dest_s3_path).1 →
    copy_folder source_s3_path dest_s3_path keys
        = Except.error (CopyError.valueError sameBucketMsg) ∧
    dispatched_units (copy_folder source_s3_path dest_s3_path keys) = [] ∧
    planned_total (copy_folder source_s3_path dest_s3_path keys) = 0 ∧
    copy_main_exit_code source_s3_path dest_s3_path keys = 1 := by
  intro src dst keys h
  have hcf : copy_folder src dst keys = Except.error (CopyError.valueError sameBucketMsg) := by
    unfold copy_folder
    rw [if_pos h]
  refine ⟨hcf, ?_, ?_, ?_⟩
  · rw [hcf]; rfl
  · rw [hcf]; rfl
  · unfold copy_main_exit_code
    rw [hcf]

/-- Witness for C5: source bucket `x`, destination bucket `y`. -/
theorem C5_cross_bucket_witness :
    copy_folder ("s3://x/p".toList) ("s3://y/q".toList) ["p/a.txt".toList]
        = Except.error (CopyError.valueError sameBucketMsg) ∧
    dispatched_units (copy_folder ("s3://x/p".toList) ("s3://y/q".toList) ["p/a.txt".toList]) = [] ∧
    planned_total (copy_folder ("s3://x/p".toList) ("s3://y/q".toList) ["p/a.txt".toList]) = 0 ∧
    copy_main_exit_code ("s3://x/p".toList) ("s3://y/q".toList) ["p/a.txt".toList] = 1 :=
  C5_cross_bucket ("s3://x/p".toList) ("s3://y/q".toList) ["p/a.txt".toList] (by decide)

/-- Claim C8: in both scripts the summary's success-rate line is the
`"No files processed"` state iff `total_files = 0`, and otherwise it is
exactly `succeeded / totalFiles × 100` as a rational. -/
theorem C8_success_rate : ∀ (total_files n : Nat),
    ((dl_success_rate_line total_files n = SummaryRateLine.noFilesProcessed ↔ total_files = 0) ∧
     (cp_success_rate_line total_files n = SummaryRateLine.noFilesProcessed ↔ total_files = 0)) ∧
    (0 < total_files →
       dl_success_rate_line total_files n
           = SummaryRateLine.successRate ((n : ℚ) / (total_files : ℚ) * 100) ∧
       cp_success_rate_line total_files n
           = SummaryRateLine.successRate ((n : ℚ) / (total_files : ℚ) * 100)) := by
  intro t n
  unfold dl_success_rate_line cp_success_rate_line
  by_cases ht : 0 < t
  · rw [if_pos ht]
    refine ⟨⟨?_, ?_⟩, fun _ => ⟨rfl, rfl⟩⟩ <;>
      exact ⟨fun h => by simp at h, fun h => absurd h (by omega)⟩
  · rw [if_neg ht]
    have ht0 : t = 0 := by omega
    exact ⟨⟨⟨fun _ => ht0, fun _ => rfl⟩, ⟨fun _ => ht0, fun _ => rfl⟩⟩,
           fun hc => absurd hc ht⟩

/-- Witness for C8 at `total_files = 4`, `succeeded = 3`. -/
theorem C8_success_rate_witness :
    dl_success_rate_line 4 3 = SummaryRateLine.successRate (((3 : Nat) : ℚ) / ((4 : Nat) : ℚ) * 100) ∧
    cp_success_rate_line 4 3 = SummaryRateLine.successRate (((3 : Nat) : ℚ) / ((4 : Nat) : ℚ) * 100) :=
  (C8_success_rate 4 3).2 (by decide)

/-- Claim C10: in both modes every listed key ending in `/` is skipped
and yields no transfer unit, so no dispatched unit's source key ends in
`/`; additionally, a marker key contributes nothing to the planned
units (download mode still counts it in `total_files`). -/
theorem C10_no_marker_units :
    (∀ (pre dir : Str) (keys : List Str) (t0 : Nat) (u : TransferUnit),
        u ∈ (download_loop pre dir keys t0).2 → endsWithSlash u.sourceKey = false) ∧
    (∀ (sp dp : Str) (keys : List Str) (u : CopyUnit),
        u ∈ copy_dispatch_loop sp dp keys → endsWithSlash u.sourceKey = false) ∧
    (∀ (pre dir key : Str) (keys : List Str) (t0 : Nat), endsWithSlash key = true →
        (download_loop pre dir (key :: keys) t0).2 = (download_loop pre dir keys (t0 + 1)).2) ∧
    (∀ (sp dp key : Str) (keys : List Str), endsWithSlash key = true →
        copy_dispatch_loop sp dp (key :: keys) = copy_dispatch_loop sp dp keys) := by
  refine ⟨?_, ?_, ?_, ?_⟩
  · intro pre dir keys
    induction keys with
    | nil => intro t0 u hu; simp [download_loop] at hu
    | cons key restKeys ih =>
        intro t0 u hu
        simp only [download_loop] at hu
        split at hu
        · exact ih _ u hu
        · rename_i hcond
          rcases List.mem_cons.mp hu with rfl | hu'
          · push_neg at hcond
            simpa using hcond.2
          · exact ih _ u hu'
  · intro sp dp keys
    induction keys with
    | nil => intro u hu; simp [copy_dispatch_loop] at hu
    | cons key restKeys ih =>
        intro u hu
        simp only [copy_dispatch_loop] at hu
        split at hu
        · exact ih u hu
        · rename_i hcond
          rcases List.mem_cons.mp hu with rfl | hu'
          · simpa using hcond
          · exact ih u hu'
  · intro pre dir key keys t0 hk
    simp only [download_loop]
    rw [if_pos (Or.inr hk)]
  · intro sp dp key keys hk
    simp only [copy_dispatch_loop]
    rw [if_pos hk]

/-- Witness for C10: the unit for `a/f1.txt` planned from the listing
`[a/f1.txt, a/sub/]` has a source key not ending in `/`, and the marker
`a/sub/` contributes no unit. -/
theorem C10_no_marker_units_witness :
    endsWithSlash (TransferUnit.sourceKey ⟨"a/f1.txt".toList, "/out/f1.txt".toList⟩) = false ∧
    copy_dispatch_loop ("a/".toList) ("b/".toList) ["a/sub/".toList] = [] := by
  constructor
  · exact C10_no_marker_units.1 ("a/".toList) ("/out".toList)
      ["a/f1.txt".toList, "a/sub/".toList] 0
      ⟨"a/f1.txt".toList, "/out/f1.txt".toList⟩ (by decide)
  · have h := C10_no_marker_units.2.2.2 ("a/".toList) ("b/".toList) ("a/sub/".toList) [] (by decide)
    simpa using h

/-- Claim C3, counterexample: the claim says every error raised while
executing a unit — including download-mode directory creation — is
caught at the unit boundary, but the scripts catch only `ClientError`:
a unit whose `os.makedirs` raises an `OSError` propagates it to the
dispatcher's join point uncaught, and neither counter records it. -/
theorem C3_unit_error_counterexample :
    first_exc (run_download_units
        [DlEnv.makedirsRaises (PyExc.osError "Permission denied".toList)] ⟨0, 0⟩).2
      = some (PyExc.osError "Permission denied".toList) ∧
    (run_download_units
        [DlEnv.makedirsRaises (PyExc.osError "Permission denied".toList)] ⟨0, 0⟩).1
      = ⟨0, 0⟩ := by decide

/-- Claim C3, amended: a `ClientError` raised while executing a unit is
caught at the unit boundary, recorded in the failed counter, and never
reaches the join point — but only `ClientError`s are caught; any other
exception (e.g. `OSError` from per-unit directory creation) propagates
to the join point, so every exception re-raised there is a
non-`ClientError`. -/
theorem C3_unit_error_amended :
    (∀ (envs : List DlEnv) (c : DlCounters) (e : PyExc),
        first_exc (run_download_units envs c).2 = some e → isClientError e = false) ∧
    (∀ (envs : List CpEnv) (c : CpCounters) (e : PyExc),
        first_exc (run_copy_units envs c).2 = some e → isClientError e = false) ∧
    (∀ (e : PyExc) (c : DlCounters), isClientError e = true →
        download_file (DlEnv.makedirsRaises e) c
          = ({ c with download_errors := c.download_errors + 1 }, Except.ok false) ∧
        download_file (DlEnv.fetchRaises e) c
          = ({ c with download_errors := c.download_errors + 1 }, Except.ok false)) ∧
    (∀ (e : PyExc) (c : CpCounters), isClientError e = true →
        copy_object (CpEnv.copyRaises e) c
          = ({ c with copy_errors := c.copy_errors + 1 }, Except.ok false)) := by
  refine ⟨run_download_units_exc, run_copy_units_exc, ?_, ?_⟩
  · intro e c he
    constructor <;> simp [download_file, he]
  · intro e c he
    simp [copy_object, he]

/-- Witness for C3 (amended): an `OSError` reaches the join point of a
one-unit run, and a caught `ClientError` increments the failed counter. -/
theorem C3_unit_error_amended_witness :
    isClientError (PyExc.osError "EACCES".toList) = false ∧
    download_file (DlEnv.fetchRaises (PyExc.clientError "503".toList)) ⟨0, 0⟩
      = (⟨0, 1⟩, Except.ok false) := by
  constructor
  · exact C3_unit_error_amended.1
      [DlEnv.makedirsRaises (PyExc.osError "EACCES".toList)] ⟨0, 0⟩
      (PyExc.osError "EACCES".toList) (by decide)
  · have h := (C3_unit_error_amended.2.2.1 (PyExc.clientError "503".toList) ⟨0, 0⟩
      (by decide)).2
    simpa using h

/-- Claim C4, counterexample: the claim says succeeded + failed always
equals the number of dispatched units after the join, but a unit that
raises a non-`ClientError` exception increments neither counter: after
one such dispatched unit the counters sum to 0, not 1. -/
theorem C4_counter_sum_counterexample :
    ¬ ((run_download_units [DlEnv.fetchRaises (PyExc.osError [])] ⟨0, 0⟩).1.downloaded_files
        + (run_download_units [DlEnv.fetchRaises (PyExc.osError [])] ⟨0, 0⟩).1.download_errors
       = [DlEnv.fetchRaises (PyExc.osError [])].length) := by decide

/-- Claim C4, amended: each unit that completes or fails with a caught
`ClientError` contributes exactly one increment to exactly one of the
two counters, and whenever the join point re-raises nothing (no unit
raised a non-`ClientError` exception) the counters absorb exactly one
increment per dispatched unit, so succeeded + failed equals the number
of dispatched units. -/
theorem C4_counter_sum_amended :
    (∀ (env : DlEnv) (c : DlCounters),
        (∃ e, (download_file env c).2 = Except.error e) ∨
        ((download_file env c).1.downloaded_files = c.downloaded_files + 1 ∧
         (download_file env c).1.download_errors = c.download_errors) ∨
        ((download_file env c).1.downloaded_files = c.downloaded_files ∧
         (download_file env c).1.download_errors = c.download_errors + 1)) ∧
    (∀ (envs : List DlEnv) (c : DlCounters),
        first_exc (run_download_units envs c).2 = none →
        (run_download_units envs c).1.downloaded_files
            + (run_download_units envs c).1.download_errors
          = c.downloaded_files + c.download_errors + envs.length) ∧
    (∀ (env : CpEnv) (c : CpCounters),
        (∃ e, (copy_object env c).2 = Except.error e) ∨
        ((copy_object env c).1.copied_files = c.copied_files + 1 ∧
         (copy_object env c).1.copy_errors = c.copy_errors) ∨
        ((copy_object env c).1.copied_files = c.copied_files ∧
         (copy_object env c).1.copy_errors = c.copy_errors + 1)) ∧
    (∀ (envs : List CpEnv) (c : CpCounters),
        first_exc (run_copy_units envs c).2 = none →
        (run_copy_units envs c).1.copied_files + (run_copy_units envs c).1.copy_errors
          = c.copied_files + c.copy_errors + envs.length) := by
  refine ⟨?_, run_download_units_sum, ?_, run_copy_units_sum⟩
  · intro env c
    cases hstep : (download_file env c).2 with
    | error e => exact Or.inl ⟨e, rfl⟩
    | ok b => exact Or.inr (download_file_ok_cases hstep)
  · intro env c
    cases hstep : (copy_object env c).2 with
    | error e => exact Or.inl ⟨e, rfl⟩
    | ok b => exact Or.inr (copy_object_ok_cases hstep)

/-- Witness for C4 (amended): a three-unit run with one caught
`ClientError` ends with succeeded + failed = 3. -/
theorem C4_counter_sum_amended_witness :
    (run_download_units
        [DlEnv.ok, DlEnv.fetchRaises (PyExc.clientError "503".toList), DlEnv.ok]
        ⟨0, 0⟩).1.downloaded_files
      + (run_download_units
        [DlEnv.ok, DlEnv.fetchRaises (PyExc.clientError "503".toList), DlEnv.ok]
        ⟨0, 0⟩).1.download_errors
      = 0 + 0 + [DlEnv.ok, DlEnv.fetchRaises (PyExc.clientError "503".toList), DlEnv.ok].length :=
  C4_counter_sum_amended.2.1
    [DlEnv.ok, DlEnv.fetchRaises (PyExc.clientError "503".toList), DlEnv.ok]
    ⟨0, 0⟩ (by decide)

end S3U
